import Mathlib

/-!
Verification development for the multi-source travel aggregation pipeline
of the travel-ai-agent repository.  Python dictionaries are embedded as
Lean structures, Python floats as rational numbers, optional or missing
dictionary keys as Option values, exceptions as Except values, and the
stable Python sorted builtin as List.mergeSort (which is stable).  Message
strings from the source are reproduced with apostrophes dropped, since the
exact text is irrelevant to the claims.
-/

namespace TravelAgent

/-! ## Flight ranking (flight_sort_key in trip_planner_tool.py)

A flight record as consumed by flight_sort_key.  The key function first
resolves a stop count from the record (a stops string such as "direct" or
"1 stop", or len(segments) - 1 for Amadeus records, defaulting to 0) and
then pairs it with flight.get("price", float("inf")).  We embed records
with the resolved stop count and an optional price, where none models an
absent price key (mapped to plus infinity by the key). -/
structure Flight where
  stops : Nat
  price : Option ℚ
  site : String := ""
deriving Repr, DecidableEq

/-- Comparison of optional prices where a missing price behaves as plus
infinity, as produced by the default value float("inf") in the sort keys. -/
def priceLE : Option ℚ → Option ℚ → Bool
  | _, none => true
  | none, some _ => false
  | some a, some b => decide (a ≤ b)

/-- Embedding of the comparison induced by flight_sort_key: Python sorts
ascending by the tuple (stops, price-with-missing-as-infinity). -/
def flightLE (f g : Flight) : Bool :=
  decide (f.stops < g.stops) || (decide (f.stops = g.stops) && priceLE f.price g.price)

/-- Embedding of sorted(all_flights, key=flight_sort_key): the Python sort
is stable and ascending, which is exactly List.mergeSort with flightLE. -/
def rankFlights (l : List Flight) : List Flight := l.mergeSort flightLE

theorem priceLE_trans (a b c : Option ℚ) (hab : priceLE a b = true)
    (hbc : priceLE b c = true) : priceLE a c = true := by
  cases a <;> cases b <;> cases c <;> simp_all [priceLE] <;> exact le_trans hab hbc

theorem priceLE_total (a b : Option ℚ) : priceLE a b || priceLE b a := by
  cases a <;> cases b <;> simp [priceLE] <;> exact le_total _ _

theorem flightLE_trans (a b c : Flight) (hab : flightLE a b = true)
    (hbc : flightLE b c = true) : flightLE a c = true := by
  simp only [flightLE, Bool.or_eq_true, Bool.and_eq_true, decide_eq_true_eq] at *
  rcases hab with h1 | ⟨h1, h2⟩ <;> rcases hbc with h3 | ⟨h3, h4⟩
  · exact Or.inl (h1.trans h3)
  · exact Or.inl (h3 ▸ h1)
  · exact Or.inl (h1 ▸ h3)
  · exact Or.inr ⟨h1.trans h3, priceLE_trans _ _ _ h2 h4⟩

theorem flightLE_total (a b : Flight) : flightLE a b || flightLE b a := by
  simp only [flightLE, Bool.or_eq_true, Bool.and_eq_true, decide_eq_true_eq]
  rcases Nat.lt_trichotomy a.stops b.stops with h | h | h
  · exact Or.inl (Or.inl h)
  · rcases Bool.or_eq_true _ _ |>.mp (priceLE_total a.price b.price) with hp | hp
    · exact Or.inl (Or.inr ⟨h, hp⟩)
    · exact Or.inr (Or.inr ⟨h.symm, hp⟩)
  · exact Or.inr (Or.inl h)

/-! ## Hotel and activity ranking -/

/-- A hotel record as consumed by accommodation_sort_key in
trip_planner_tool.py and by HotelScraper._filter_and_rank_results.  A
rating of none models an absent or None rating field; a price of none
models an absent or None price field. -/
structure Hotel where
  name : String
  rating : Option ℚ
  price : Option ℚ
  source : String := ""
deriving Repr, DecidableEq

/-- Embedding of the Python expression (value or 0): an absent or None
rating becomes 0 (a present rating of 0 also stays 0). -/
def ratingOr0 (r : Option ℚ) : ℚ := r.getD 0

/-- Embedding of accommodation_sort_key: Python sorts ascending by the
tuple (-(rating or 0), price-with-missing-as-infinity), where only an
absent price key gets the default float("inf"). -/
def accommodationLE (a b : Hotel) : Bool :=
  decide (-(ratingOr0 a.rating) < -(ratingOr0 b.rating)) ||
    (decide (-(ratingOr0 a.rating) = -(ratingOr0 b.rating)) && priceLE a.price b.price)

/-- Embedding of sorted(all_accommodations, key=accommodation_sort_key). -/
def rankAccommodations (l : List Hotel) : List Hotel := l.mergeSort accommodationLE

/-- Embedding of the price part of the key in
HotelScraper._filter_and_rank_results, namely x.get("price") or
float("inf"): a price that is absent, None, or zero becomes infinity. -/
def scraperPriceVal (p : Option ℚ) : Option ℚ :=
  match p with
  | some q => if q = 0 then none else some q
  | none => none

/-- Embedding of the key lambda in HotelScraper._filter_and_rank_results:
ascending by the tuple (-(rating or 0), price or float("inf")). -/
def scraperHotelLE (a b : Hotel) : Bool :=
  decide (-(ratingOr0 a.rating) < -(ratingOr0 b.rating)) ||
    (decide (-(ratingOr0 a.rating) = -(ratingOr0 b.rating)) &&
      priceLE (scraperPriceVal a.price) (scraperPriceVal b.price))

/-- Embedding of HotelScraper._filter_and_rank_results: drop records with
a falsy name, sort by the key, return the first top_n records. -/
def filter_and_rank_results (results : List Hotel) (topN : Nat := 3) : List Hotel :=
  ((results.filter (fun r => !(r.name == ""))).mergeSort scraperHotelLE).take topN

theorem accommodationLE_trans (a b c : Hotel) (hab : accommodationLE a b = true)
    (hbc : accommodationLE b c = true) : accommodationLE a c = true := by
  simp only [accommodationLE, Bool.or_eq_true, Bool.and_eq_true, decide_eq_true_eq] at *
  rcases hab with h1 | ⟨h1, h2⟩ <;> rcases hbc with h3 | ⟨h3, h4⟩
  · exact Or.inl (h1.trans h3)
  · exact Or.inl (h3 ▸ h1)
  · exact Or.inl (h1 ▸ h3)
  · exact Or.inr ⟨h1.trans h3, priceLE_trans _ _ _ h2 h4⟩

theorem accommodationLE_total (a b : Hotel) : accommodationLE a b || accommodationLE b a := by
  simp only [accommodationLE, Bool.or_eq_true, Bool.and_eq_true, decide_eq_true_eq]
  rcases lt_trichotomy (-(ratingOr0 a.rating)) (-(ratingOr0 b.rating)) with h | h | h
  · exact Or.inl (Or.inl h)
  · rcases Bool.or_eq_true _ _ |>.mp (priceLE_total a.price b.price) with hp | hp
    · exact Or.inl (Or.inr ⟨h, hp⟩)
    · exact Or.inr (Or.inr ⟨h.symm, hp⟩)
  · exact Or.inr (Or.inl h)

theorem scraperHotelLE_trans (a b c : Hotel) (hab : scraperHotelLE a b = true)
    (hbc : scraperHotelLE b c = true) : scraperHotelLE a c = true := by
  simp only [scraperHotelLE, Bool.or_eq_true, Bool.and_eq_true, decide_eq_true_eq] at *
  rcases hab with h1 | ⟨h1, h2⟩ <;> rcases hbc with h3 | ⟨h3, h4⟩
  · exact Or.inl (h1.trans h3)
  · exact Or.inl (h3 ▸ h1)
  · exact Or.inl (h1 ▸ h3)
  · exact Or.inr ⟨h1.trans h3, priceLE_trans _ _ _ h2 h4⟩

theorem scraperHotelLE_total (a b : Hotel) : scraperHotelLE a b || scraperHotelLE b a := by
  simp only [scraperHotelLE, Bool.or_eq_true, Bool.and_eq_true, decide_eq_true_eq]
  rcases lt_trichotomy (-(ratingOr0 a.rating)) (-(ratingOr0 b.rating)) with h | h | h
  · exact Or.inl (Or.inl h)
  · rcases Bool.or_eq_true _ _ |>.mp
      (priceLE_total (scraperPriceVal a.price) (scraperPriceVal b.price)) with hp | hp
    · exact Or.inl (Or.inr ⟨h, hp⟩)
    · exact Or.inr (Or.inr ⟨h.symm, hp⟩)
  · exact Or.inr (Or.inl h)

/-- An activity record as consumed by the rating-only sorts in
duckduckgo_activity_search.py (sort with reverse=True on float(rating or
0)) and get_activity_options in trip_planner_tool.py (sort on the negated
numeric rating).  Both order by rating descending with a missing or
non-numeric rating treated as 0 and no price tiebreak. -/
structure ActivityRec where
  name : String
  rating : Option ℚ
deriving Repr, DecidableEq

/-- Descending-by-rating comparison used by both activity sorts; Python
list.sort is stable also with reverse=True, matching mergeSort here. -/
def activityLE (a b : ActivityRec) : Bool :=
  decide (ratingOr0 b.rating ≤ ratingOr0 a.rating)

/-- Embedding of the stable descending-by-rating activity sort. -/
def rankActivities (l : List ActivityRec) : List ActivityRec := l.mergeSort activityLE

theorem activityLE_trans (a b c : ActivityRec) (hab : activityLE a b = true)
    (hbc : activityLE b c = true) : activityLE a c = true := by
  simp only [activityLE, decide_eq_true_eq] at *
  exact hbc.trans hab

theorem activityLE_total (a b : ActivityRec) : activityLE a b || activityLE b a := by
  simp only [activityLE, Bool.or_eq_true, decide_eq_true_eq]
  exact (le_total (ratingOr0 b.rating) (ratingOr0 a.rating))

/-! ## Price parsing (HotelScraper.extract_price in hotel_scraper.py)

The Python function returns None for falsy input, otherwise applies
re.search with the pattern: optional currency symbol, optional lazy
whitespace, then the captured group of one or more digits followed by any
run of commas, dots and digits.  Since the optional prefix can only cover
one symbol and whitespace and the group must begin with a digit, the
leftmost match always captures the maximal run of digits, commas and dots
that starts at the leftmost digit of the string.  The captured text has
its commas removed and is passed to float(), which succeeds on a string
of digits and dots starting with a digit exactly when it contains at most
one dot. -/

/-- Characters the captured group of the price regex may contain after
its leading digit. -/
def isPriceRunChar (c : Char) : Bool := c.isDigit || c == ',' || c == '.'

/-- Numeric value of a digit string, most significant digit first. -/
def digitsVal (l : List Char) : Nat := l.foldl (fun n c => n * 10 + (c.toNat - 48)) 0

/-- Embedding of Python float() applied to a comma-free string of digits
and dots that starts with a digit: it succeeds exactly when at most one
dot occurs, yielding the integer part plus the fractional part. -/
def floatOfDigitsDots (s : List Char) : Option ℚ :=
  if (s.filter (fun c => c == '.')).length ≤ 1 then
    some ((digitsVal (s.takeWhile (fun c => !(c == '.'))) : ℚ) +
      (digitsVal ((s.dropWhile (fun c => !(c == '.'))).drop 1) : ℚ) /
        (10 : ℚ) ^ ((s.dropWhile (fun c => !(c == '.'))).drop 1).length)
  else none

/-- Embedding of HotelScraper.extract_price over the character list of the
input text: when the text has no digit the regex fails and the result is
none; otherwise the captured run starting at the leftmost digit has its
commas removed and is converted. -/
def extract_price (s : List Char) : Option ℚ :=
  let rest := s.dropWhile (fun c => !c.isDigit)
  if rest.isEmpty then none
  else floatOfDigitsDots ((rest.takeWhile isPriceRunChar).filter (fun d => !(d == ',')))

/-! ## Deduplication by lowercased name

Both DuckDuckGoHotelSearch.search_hotels and
DuckDuckGoActivitySearch.search_activities deduplicate records by keeping
a set of already seen lowercased names: a record with a falsy name is
skipped, a record whose lowercased name was already seen is skipped, and
otherwise the record is kept and its lowercased name is recorded.  The
name is used exactly as extracted, with no trimming and no collapsing of
internal whitespace. -/

/-- Embedding of Python str.lower (equivalently Lean String.toLower,
which maps Char.toLower over the same characters): lowercasing applied
characterwise to the string data. -/
def pyLower (s : String) : String := String.mk (s.data.map Char.toLower)

/-- A record carrying the name used as the deduplication key and a source
tag distinguishing which source produced it. -/
structure NamedRec where
  name : String
  source : String := ""
deriving Repr, DecidableEq

/-- One pass of the deduplication loop with the accumulated set of seen
lowercased names. -/
def dedupeGo (seen : List String) : List NamedRec → List NamedRec
  | [] => []
  | r :: rs =>
    if r.name = "" then dedupeGo seen rs
    else if pyLower r.name ∈ seen then dedupeGo seen rs
    else r :: dedupeGo (pyLower r.name :: seen) rs

/-- Embedding of the deduplication step shared by the two DuckDuckGo
search modules. -/
def dedupe (l : List NamedRec) : List NamedRec := dedupeGo [] l

theorem dedupeGo_idem (l : List NamedRec) :
    ∀ seen, dedupeGo seen (dedupeGo seen l) = dedupeGo seen l := by
  induction l with
  | nil => intro seen; rfl
  | cons r rs ih =>
    intro seen
    by_cases h1 : r.name = ""
    · simp [dedupeGo, h1, ih]
    · by_cases h2 : pyLower r.name ∈ seen
      · simp [dedupeGo, h1, h2, ih]
      · simp [dedupeGo, h1, h2, ih]

/-! ## Budget filtering of scraped hotels
(get_accommodation_options in trip_planner_tool.py)

The scraper branch filters each sites hotels: the loop breaks once
max_results hotels were kept; a hotel is kept only when
hotel.get("price", 0) is truthy (so an absent, None, or zero price is
rejected) and lies in the budget range, and, when an accommodation type
was requested, the type string occurs in the hotels type or name. -/

/-- A scraped hotel record as consumed by the budget filter: a price of
none models an absent or None price field. -/
structure ScrapedHotel where
  name : String
  htype : String := ""
  price : Option ℚ
deriving Repr, DecidableEq

/-- Embedding of the Python truthiness test on hotel.get("price", 0): an
absent key defaults to 0, and both 0 and None are falsy. -/
def priceTruthy : Option ℚ → Bool
  | none => false
  | some p => !(p == 0)

/-- Embedding of the price_ranges dictionary with
price_ranges.get(budget_level.lower(), (0, float("inf"))); a maximum of
none models float("inf"). -/
def price_ranges (budget : String) : ℚ × Option ℚ :=
  if pyLower budget = "budget" then (0, some 100)
  else if pyLower budget = "moderate" then (100, some 300)
  else if pyLower budget = "luxury" then (300, none)
  else (0, none)

/-- Comparison of a price against the upper bound of a budget range,
where none models float("inf"). -/
def leMaxPrice (p : ℚ) : Option ℚ → Bool
  | none => true
  | some m => decide (p ≤ m)

/-- Embedding of the per-site accommodation type test: when a type was
requested, the lowercased request must occur as a substring of the
lowercased hotel type or of the lowercased hotel name. -/
def typePasses (accType : Option String) (h : ScrapedHotel) : Bool :=
  match accType with
  | none => true
  | some t =>
    if t = "" then true
    else
      ((pyLower h.htype).splitOn (pyLower t)).length > 1 ||
        ((pyLower h.name).splitOn (pyLower t)).length > 1

/-- Embedding of the guard price and min_price <= price <= max_price of
the hotel filter: the chained comparison is only evaluated when the price
is truthy. -/
def priceOK (minP : ℚ) (maxP : Option ℚ) (p : Option ℚ) : Bool :=
  priceTruthy p &&
    (match p with
     | some q => decide (minP ≤ q) && leMaxPrice q maxP
     | none => false)

/-- Embedding of the hotel filter loop of get_accommodation_options for
one site, carrying the count of hotels kept so far. -/
def filterHotelsGo (minP : ℚ) (maxP : Option ℚ) (accType : Option String)
    (maxResults : Nat) : List ScrapedHotel → Nat → List ScrapedHotel
  | [], _ => []
  | h :: hs, kept =>
    if maxResults ≤ kept then []
    else if priceOK minP maxP h.price then
      if typePasses accType h then h :: filterHotelsGo minP maxP accType maxResults hs (kept + 1)
      else filterHotelsGo minP maxP accType maxResults hs kept
    else filterHotelsGo minP maxP accType maxResults hs kept

/-- Embedding of the budget filter applied to the scraper-sourced hotels
of one site in get_accommodation_options. -/
def filterHotels (budget : String) (accType : Option String) (maxResults : Nat)
    (hotels : List ScrapedHotel) : List ScrapedHotel :=
  filterHotelsGo (price_ranges budget).1 (price_ranges budget).2 accType maxResults hotels 0

/-! ## Retry loop of the Amadeus source adapter
(AmadeusAPIHandler.search_flights and search_hotels)

Each attempt of the while-loop ends in one of five ways: the API returns
data (a parsed list is returned), the API returns no data (an empty list
is returned), a ResponseError carrying a 429 rate-limit status is raised
(the retry counter is incremented and the loop continues), another
ResponseError is raised (an empty list is returned), or some other
exception is raised (the retry counter is incremented and, once it
reaches max_retries, an empty list is returned).  When the incremented
retry counter makes the loop condition retries < max_retries fail after a
rate-limit error, control falls off the end of the function, which in
Python returns None rather than a list. -/

inductive AttemptOutcome where
  /-- The API call returned data; the parsed list is the result. -/
  | ok (flights : List String)
  /-- The API call returned no data. -/
  | noData
  /-- A ResponseError whose text starts with a 429 status. -/
  | rateLimited
  /-- Any other ResponseError. -/
  | apiError
  /-- Any other exception. -/
  | exn
deriving Repr, DecidableEq

/-- Embedding of the retry while-loop shared by search_flights and
search_hotels, with the outcome of each attempt given by an oracle
indexed by the current retry counter.  The fuel argument is
max_retries - retries, so fuel = 0 is exactly the loop condition
retries < max_retries failing, where control falls off the end of the
Python function: a result of none models that implicit return of None.
In the exception branch the incremented counter reaches max_retries
exactly when fuel = 0 after the step, returning an empty list. -/
def searchLoop (outcomes : Nat → AttemptOutcome) (retries : Nat) :
    Nat → Option (List String)
  | 0 => none
  | fuel + 1 =>
    match outcomes retries with
    | .ok fs => some fs
    | .noData => some []
    | .apiError => some []
    | .rateLimited => searchLoop outcomes (retries + 1) fuel
    | .exn =>
      if fuel = 0 then some []
      else searchLoop outcomes (retries + 1) fuel

/-- Embedding of AmadeusAPIHandler.search_flights (and, with the same
control structure, search_hotels): a missing client returns an empty
list, otherwise the retry loop runs with max_retries = 3 attempts
starting from a zero retry counter. -/
def search_flights (hasClient : Bool) (outcomes : Nat → AttemptOutcome) :
    Option (List String) :=
  if hasClient then searchLoop outcomes 0 3 else some []

/-! ## Top-level plan_trip of trip_planner_tool.py

The function validates the two dates, then fetches the four categories,
each in its own try block.  A category fetcher that raises has its
message recorded in the errors list and its entry in the plan set to a
dictionary with the error message and an empty results list; the other
categories are unaffected.  Category payloads are opaque here (lists of
record strings), and the date strings are accompanied by their strptime
parse results as optional day numbers. -/

/-- Outcome of one category in the returned plan: either the fetched
payload, or the error dictionary with its message and empty results. -/
inductive CatOutcome where
  | ok (payload : List String)
  | failed (msg : String)
deriving Repr, DecidableEq

/-- Results list of a category entry; an errored category is empty. -/
def CatOutcome.results : CatOutcome → List String
  | .ok l => l
  | .failed _ => []

/-- Maps the outcome of a category fetcher (normal return or exception)
to the entry stored in the plan. -/
def catField : Except String (List String) → CatOutcome
  | .ok l => .ok l
  | .error m => .failed m

/-- Embedding of the metadata dictionary added to every returned plan. -/
structure TripMetadata where
  origin_city : String
  destination_city : String
  start_date : String
  end_date : String
  travelers : Nat
  budget_level : String
  errors : List String
deriving Repr, DecidableEq

/-- Embedding of the trip plan dictionary returned by plan_trip. -/
structure TripPlanOut where
  flights : CatOutcome
  accommodations : CatOutcome
  activities : Option CatOutcome
  travel_info : CatOutcome
  summary : String
  metadata : TripMetadata
  status : String
deriving Repr, DecidableEq

/-- Result of plan_trip: either the early validation rejection with
status failed, or a full plan. -/
inductive PlanResult where
  | invalid (error : String)
  | plan (p : TripPlanOut)
deriving Repr, DecidableEq

/-- One category fetch performed by plan_trip; the trace of these records
which backends a run contacted. -/
inductive FetchCall where
  | flights
  | accommodations
  | activities
  | travelInfo
deriving Repr, DecidableEq

/-- Embedding of the errors list accumulated by plan_trip, in fetch
order. -/
def planErrors (includeActivities : Bool) (fR aR cR iR : Except String (List String)) :
    List String :=
  (match fR with
   | .error m => ["Could not retrieve flight options: " ++ m]
   | .ok _ => []) ++
  (match aR with
   | .error m => ["Could not retrieve accommodation options: " ++ m]
   | .ok _ => []) ++
  (if includeActivities then
    (match cR with
     | .error m => ["Could not retrieve activity options: " ++ m]
     | .ok _ => [])
   else []) ++
  (match iR with
   | .error m => ["Could not retrieve travel information: " ++ m]
   | .ok _ => [])

/-- Embedding of the plan dictionary built by plan_trip after its date
validation succeeded: the four category entries, the summary (abbreviated
to its headline string, which the claims do not inspect), the metadata
with the errors list, and the status. -/
def plan_trip_body (origin destination start_s end_s : String)
    (travelers : Nat) (budget : String) (includeActivities hasOpenAIKey : Bool)
    (fR aR cR iR : Except String (List String)) (summaryR : Except String String) :
    TripPlanOut :=
  { flights := catField fR
    accommodations := catField aR
    activities := if includeActivities then some (catField cR) else none
    travel_info := catField iR
    summary :=
      if hasOpenAIKey then
        match summaryR with
        | .ok s2 => s2
        | .error _ => "Trip to " ++ destination
      else "Trip to " ++ destination
    metadata := { origin_city := origin, destination_city := destination,
                  start_date := start_s, end_date := end_s,
                  travelers := travelers, budget_level := budget,
                  errors := planErrors includeActivities fR aR cR iR }
    status :=
      if planErrors includeActivities fR aR cR iR = [] then "success"
      else if (planErrors includeActivities fR aR cR iR).length < 4 then "partial"
      else "failed" }

/-- Embedding of plan_trip in trip_planner_tool.py.  The parameters
startD and endD are the strptime parse results of the date strings (none
models a ValueError); the Except parameters are the outcomes of the four
category fetchers and of the LLM summary call.  The fetch trace records
which categories were fetched. -/
def plan_trip (origin destination start_s end_s : String) (startD endD : Option Int)
    (travelers : Nat) (budget : String) (includeActivities hasOpenAIKey : Bool)
    (fR aR cR iR : Except String (List String)) (summaryR : Except String String) :
    PlanResult × List FetchCall :=
  match startD, endD with
  | none, _ => (.invalid "Invalid date format. Please use YYYY-MM-DD", [])
  | some _, none => (.invalid "Invalid date format. Please use YYYY-MM-DD", [])
  | some s, some e =>
    if e < s then (.invalid "End date must be after start date", [])
    else
      (.plan (plan_trip_body origin destination start_s end_s travelers budget
        includeActivities hasOpenAIKey fR aR cR iR summaryR),
       [FetchCall.flights, FetchCall.accommodations] ++
         (if includeActivities then [FetchCall.activities] else []) ++
         [FetchCall.travelInfo])

/-- Embedding of the parameter dictionary consumed by
llm_trip_planner_tool; a value of none models a missing key. -/
structure LLMParams where
  origin_city : Option String
  destination_city : Option String
  start_date : Option String
  end_date : Option String
deriving Repr, DecidableEq

/-- Python truthiness of an optional string: a missing key and an empty
string are both falsy. -/
def strTruthy : Option String → Bool
  | none => false
  | some s => !(s == "")

/-- Result of llm_trip_planner_tool: the parameter validation rejection
with status failed, or the result of running plan_trip. -/
inductive LLMToolResult where
  | missingParams (error : String)
  | ran (r : PlanResult)
deriving Repr, DecidableEq

/-- Embedding of llm_trip_planner_tool in trip_planner_tool.py: when any
of the four required parameters is missing, a rejection is returned and
plan_trip is never run, so the fetch trace is empty. -/
def llm_trip_planner_tool (params : LLMParams) (startD endD : Option Int)
    (travelers : Nat) (budget : String) (includeActivities hasOpenAIKey : Bool)
    (fR aR cR iR : Except String (List String)) (summaryR : Except String String) :
    LLMToolResult × List FetchCall :=
  if strTruthy params.origin_city && strTruthy params.destination_city &&
      strTruthy params.start_date && strTruthy params.end_date then
    let r := plan_trip (params.origin_city.getD "") (params.destination_city.getD "")
      (params.start_date.getD "") (params.end_date.getD "") startD endD travelers budget
      includeActivities hasOpenAIKey fR aR cR iR summaryR
    (.ran r.1, r.2)
  else
    (.missingParams
      "Missing required parameters. Must provide origin_city, destination_city, start_date, and end_date.",
     [])

/-! ## AmadeusTripPlannerTool.plan_trip
(amadeus_trip_planner_tool.py)

The method validates the extracted destination, then runs three sections,
each with its own try block: flights (only when an origin was extracted),
hotels (DuckDuckGo first, Amadeus only as fallback when DuckDuckGo
returned nothing), and activities (DuckDuckGo first, Firecrawl only as
fallback).  Each backend operation is recorded in a call trace; oracles
model the outcome of each backend, with Except.error standing for a
raised exception. -/

/-- One backend invocation of the planners, recorded in order. -/
inductive Call where
  | getCityCode (city : String)
  | searchFlights
  | ddgSearchHotels
  | amadeusSearchHotels
  | ddgSearchActivities
  | firecrawlActivities
  | firecrawlAttractions
  | firecrawlRestaurants
  | flightScraper
deriving Repr, DecidableEq

/-- Oracles for the backends consumed by AmadeusTripPlannerTool.
get_city_code never raises (it catches internally and returns None on
failure); the search operations may raise, modelled by Except.error. -/
structure Backends where
  getCityCode : String → Option String
  defaultAirportCode : String → Option String
  searchFlights : Except Unit (List String)
  ddgHotels : Except Unit (List String)
  amadeusHotels : Except Unit (List String)
  ddgActivities : Except Unit (List String)
  fcActivities : Except Unit (List String)
  fcAttractions : Except Unit (List String)
  fcRestaurants : Except Unit (List String)

/-- Embedding of the flight block of AmadeusTripPlannerTool.plan_trip:
resolves both city codes (falling back to the static table), searches
flights only when both codes resolved, and converts failures into
suggestions.  Returns ((flights, suggestions), calls). -/
def flightSection (origin destination : String) (b : Backends) :
    (List String × List String) × List Call :=
  let ocode := (b.getCityCode origin).orElse (fun _ => b.defaultAirportCode origin)
  let s1 := if ocode.isNone then
    ["I could not find the airport code for " ++ origin ++ ". Try using a major city nearby."]
    else []
  let dcode := (b.getCityCode destination).orElse (fun _ => b.defaultAirportCode destination)
  let s2 := if dcode.isNone then
    ["I could not find the airport code for " ++ destination ++ ". Try using a major city nearby."]
    else []
  let baseCalls := [Call.getCityCode origin, Call.getCityCode destination]
  match ocode, dcode with
  | some _, some _ =>
    (match b.searchFlights with
     | .ok fs =>
       if fs.isEmpty then
         (([], s1 ++ s2 ++
           ["I could not find any flights from " ++ origin ++ " to " ++ destination ++
             " for the specified dates. Try different dates or nearby airports."]),
          baseCalls ++ [Call.searchFlights])
       else ((fs, s1 ++ s2), baseCalls ++ [Call.searchFlights])
     | .error _ =>
       (([], s1 ++ s2 ++
         ["There was an error getting flight information. Please try again later."]),
        baseCalls ++ [Call.searchFlights]))
  | _, _ =>
    (([], s1 ++ s2 ++
      (if ocode.isNone then
        ["I could not identify the airport code for " ++ origin ++ "."] else []) ++
      (if dcode.isNone then
        ["I could not identify the airport code for " ++ destination ++ "."] else []) ++
      ["Try specifying major cities with international airports."]),
     baseCalls)

/-- Embedding of the hotel block of AmadeusTripPlannerTool.plan_trip:
DuckDuckGo is queried first; only when it returns an empty list is the
Amadeus fallback (city code lookup plus hotel search) invoked.  The final
check of the block repeats the no-hotels suggestion when the plan still
has no hotels. -/
def hotelSection (destination : String) (b : Backends) :
    (List String × List String) × List Call :=
  match b.ddgHotels with
  | .error _ =>
    (([], ["There was an error getting hotel information. Please try again later."]),
     [Call.ddgSearchHotels])
  | .ok web =>
    if !web.isEmpty then ((web, []), [Call.ddgSearchHotels])
    else
      let fallbackCalls :=
        [Call.ddgSearchHotels, Call.getCityCode destination, Call.amadeusSearchHotels]
      let noHotels := "I could not find any hotels in " ++ destination ++
        " for the specified dates. Try different dates or a different destination."
      match b.amadeusHotels with
      | .ok hs =>
        if hs.isEmpty then (([], [noHotels, noHotels]), fallbackCalls)
        else ((hs, ["Hotel information was sourced from our official hotel provider."]),
          fallbackCalls)
      | .error _ => (([], [noHotels, noHotels]), fallbackCalls)

/-- Embedding of the activity block of AmadeusTripPlannerTool.plan_trip:
DuckDuckGo is queried first; only when it returns an empty list are the
Firecrawl activities and attractions (and, when the query mentions food,
restaurants) queried.  A raise anywhere in the block is caught by its
except clause. -/
def activitySection (destination : String) (b : Backends) (mentionsFood : Bool) :
    (List String × List String) × List Call :=
  let errMsg := "There was an error getting activity information. Please try again later."
  let noActs := "I could not find any activities in " ++ destination ++
    ". Try being more specific about what you would like to do."
  match b.ddgActivities with
  | .error _ => (([], [errMsg]), [Call.ddgSearchActivities])
  | .ok acts =>
    if !acts.isEmpty then ((acts, []), [Call.ddgSearchActivities])
    else
      match b.fcActivities with
      | .error _ =>
        (([], [errMsg]), [Call.ddgSearchActivities, Call.firecrawlActivities])
      | .ok fa =>
        match b.fcAttractions with
        | .error _ =>
          (([], [errMsg]),
           [Call.ddgSearchActivities, Call.firecrawlActivities, Call.firecrawlAttractions])
        | .ok at2 =>
          if mentionsFood then
            match b.fcRestaurants with
            | .error _ =>
              (([], [errMsg]),
               [Call.ddgSearchActivities, Call.firecrawlActivities,
                Call.firecrawlAttractions, Call.firecrawlRestaurants])
            | .ok rs =>
              let all := fa ++ at2 ++ rs
              ((if all.isEmpty then ([], [noActs]) else (all, [])),
               [Call.ddgSearchActivities, Call.firecrawlActivities,
                Call.firecrawlAttractions, Call.firecrawlRestaurants])
          else
            let all := fa ++ at2
            ((if all.isEmpty then ([], [noActs]) else (all, [])),
             [Call.ddgSearchActivities, Call.firecrawlActivities, Call.firecrawlAttractions])

/-- Embedding of the trip details extracted upstream by the regex parser
extract_trip_details; a destination of none models a query from which no
destination could be determined. -/
structure TripDetails where
  origin_city : Option String
  destination_city : Option String
  departure_date : String := ""
  return_date : String := ""
  travelers : Nat := 1
  budget_level : String := "moderate"
deriving Repr, DecidableEq

/-- Result of AmadeusTripPlannerTool.plan_trip: the status error
dictionary of the destination validation, or the assembled result with
its category lists and suggestions. -/
inductive AgentResult where
  | error (msg : String)
  | success (flights hotels activities suggestions : List String)
deriving Repr, DecidableEq

/-- Embedding of AmadeusTripPlannerTool.plan_trip: validate the
destination first (returning before any backend call when it is
missing), then run the flight, hotel, and activity sections and record
every backend call in order.  The pure recommendation assembly at the end
of the method makes no backend call and is omitted. -/
def amadeus_plan_trip (details : TripDetails) (b : Backends) (mentionsFood : Bool) :
    AgentResult × List Call :=
  match details.destination_city with
  | none =>
    (.error "Could not determine the destination city from your query. Please specify where you want to go.",
     [])
  | some destination =>
    let fl := match details.origin_city with
      | some origin => flightSection origin destination b
      | none => (([], []), [])
    let ho := hotelSection destination b
    let ac := activitySection destination b mentionsFood
    (.success fl.1.1 ho.1.1 ac.1.1 (fl.1.2 ++ ho.1.2 ++ ac.1.2),
     fl.2 ++ ho.2 ++ ac.2)

/-! ## get_flight_options of trip_planner_tool.py

The function first tries the Amadeus API (city code lookups and flight
search, in a try block whose except clause discards failures), then
unconditionally tries the scrapers in a second independent try block.
Per-site scraper results are truncated to max_results and empty sites are
dropped; all collected flights are merged, tagged with their site, and
ranked with flight_sort_key. -/

/-- Embedding of the result dictionary of get_flight_options (the
search_params echo is omitted). -/
structure FlightOptions where
  best_overall : List Flight
  by_site : List (String × List Flight)
deriving Repr, DecidableEq

/-- Embedding of get_flight_options.  The oracle af gives the outcome of
the Amadeus search (its city code lookups feed only the search
arguments), and sc the outcome of search_flights_all_sites.  The scraper
call is made unconditionally, whatever the Amadeus source returned. -/
def get_flight_options (af : Except Unit (List Flight))
    (sc : Except Unit (List (String × List Flight))) (maxResults : Nat)
    (origin destination : String) : FlightOptions × List Call :=
  let amadeusPart : List (String × List Flight) :=
    match af with
    | .ok fs => if fs.isEmpty then [] else [("amadeus", fs)]
    | .error _ => []
  let scraperPart : List (String × List Flight) :=
    match sc with
    | .ok sites => (sites.map (fun p => (p.1, p.2.take maxResults))).filter
        (fun p => !p.2.isEmpty)
    | .error _ => []
  let calls := [Call.getCityCode origin, Call.getCityCode destination,
    Call.searchFlights, Call.flightScraper]
  let results := amadeusPart ++ scraperPart
  if results.isEmpty then ({ best_overall := [], by_site := [] }, calls)
  else
    let allFlights := results.foldr
      (fun p acc => (p.2.map (fun f => { f with site := p.1 })) ++ acc) []
    ({ best_overall := (rankFlights allFlights).take maxResults, by_site := results },
     calls)

/-! ## Claim theorems -/

/-- C4: the flight ranking induced by flight_sort_key is a total and
transitive order, the ranked list is sorted by it and is a permutation of
the input, a flight with fewer stops sorts strictly before any flight
with more stops regardless of prices, among equal-stop flights a lower
price sorts strictly first, and (at equal stop counts, as the
lexicographic key dictates) a flight with a missing price sorts strictly
after every flight with a price. -/
theorem C4_flight_ranking :
    (∀ f g : Flight, flightLE f g = true ∨ flightLE g f = true) ∧
    (∀ f g h : Flight, flightLE f g = true → flightLE g h = true → flightLE f h = true) ∧
    (∀ l : List Flight, (rankFlights l).Pairwise (fun f g => flightLE f g = true)) ∧
    (∀ l : List Flight, (rankFlights l).Perm l) ∧
    (∀ f g : Flight, f.stops < g.stops → flightLE f g = true ∧ flightLE g f = false) ∧
    (∀ (f g : Flight) (p q : ℚ), f.stops = g.stops → f.price = some p → g.price = some q →
      p < q → flightLE f g = true ∧ flightLE g f = false) ∧
    (∀ (f g : Flight) (p : ℚ), f.stops = g.stops → f.price = some p → g.price = none →
      flightLE f g = true ∧ flightLE g f = false) := by
  refine ⟨?_, flightLE_trans, ?_, ?_, ?_, ?_, ?_⟩
  · intro f g
    rcases Bool.or_eq_true _ _ |>.mp (flightLE_total f g) with h | h
    · exact Or.inl h
    · exact Or.inr h
  · intro l
    exact List.sorted_mergeSort flightLE_trans flightLE_total l
  · intro l
    exact List.mergeSort_perm l flightLE
  · intro f g hlt
    have h1 : ¬ (g.stops < f.stops) := by omega
    have h2 : ¬ (g.stops = f.stops) := by omega
    exact ⟨by simp [flightLE, hlt], by simp [flightLE, h1, h2]⟩
  · intro f g p q hst hfp hgp hpq
    have h2 : ¬ (q ≤ p) := not_le.mpr hpq
    exact ⟨by simp [flightLE, hst, hfp, hgp, priceLE, le_of_lt hpq],
      by simp [flightLE, hst, hfp, hgp, priceLE, h2]⟩
  · intro f g p hst hfp hgp
    exact ⟨by simp [flightLE, hst, hfp, hgp, priceLE],
      by simp [flightLE, hst, hfp, hgp, priceLE]⟩

/-- C4 witness: the three ordering conjuncts evaluated at concrete
flights. -/
theorem C4_flight_ranking_witness :
    (flightLE { stops := 0, price := some 10 } { stops := 1, price := some 5 } = true ∧
      flightLE { stops := 1, price := some 5 } { stops := 0, price := some 10 } = false) ∧
    (flightLE { stops := 2, price := some 10 } { stops := 2, price := some 20 } = true ∧
      flightLE { stops := 2, price := some 20 } { stops := 2, price := some 10 } = false) ∧
    (flightLE { stops := 2, price := some 10 } { stops := 2, price := none } = true ∧
      flightLE { stops := 2, price := none } { stops := 2, price := some 10 } = false) :=
  ⟨C4_flight_ranking.2.2.2.2.1 _ _ (by decide),
   C4_flight_ranking.2.2.2.2.2.1 _ _ 10 20 rfl rfl rfl (by decide),
   C4_flight_ranking.2.2.2.2.2.2 _ _ 10 rfl rfl rfl⟩

/-- Hotel record named by the claim scenario, as produced by the earlier
processed (higher priority) source. -/
def hotelDeVilleA : NamedRec := { name := "Hotel De Ville", source := "priority1" }

/-- Hotel record named by the claim scenario with extra internal
whitespace, from the later processed source. -/
def hotelDeVilleWs : NamedRec := { name := "hotel   de ville", source := "priority2" }

/-- Hotel record differing from hotelDeVilleA only by letter case. -/
def hotelDeVilleLc : NamedRec := { name := "hotel de ville", source := "priority2" }

/-- C6 counterexample: the records named Hotel De Ville and
hotel-with-extra-spaces-de-ville do not collapse: the deduplication key
is the lowercased name with no whitespace collapsing, so both records
survive, contradicting the claimed collapse to a single record. -/
theorem C6_dedupe_key_counterexample :
    dedupe [hotelDeVilleA, hotelDeVilleWs] = [hotelDeVilleA, hotelDeVilleWs] ∧
    (dedupe [hotelDeVilleA, hotelDeVilleWs]).length = 2 := by
  constructor <;> decide

/-- C6 amended: deduplication keys each record by its lowercased name
only, with no trimming and no whitespace collapsing, and keeps the
first-seen record for each key: two records whose names agree after
lowercasing collapse to the earlier (higher priority) record, the
case-only variant of Hotel De Ville collapses accordingly, but the
variant with extra internal whitespace is kept as a distinct record. -/
theorem C6_dedupe_key_amended :
    (∀ r1 r2 : NamedRec, r1.name ≠ "" → r2.name ≠ "" →
      pyLower r1.name = pyLower r2.name → dedupe [r1, r2] = [r1]) ∧
    dedupe [hotelDeVilleA, hotelDeVilleLc] = [hotelDeVilleA] ∧
    dedupe [hotelDeVilleA, hotelDeVilleWs] = [hotelDeVilleA, hotelDeVilleWs] := by
  refine ⟨?_, by decide, by decide⟩
  intro r1 r2 h1 h2 hk
  simp [dedupe, dedupeGo, h1, h2, hk]

/-- C6 amended witness: two records differing only by case collapse to
the first. -/
theorem C6_dedupe_key_amended_witness :
    dedupe [{ name := "Ritz", source := "x" }, { name := "RITZ", source := "y" }] =
      [{ name := "Ritz", source := "x" }] :=
  C6_dedupe_key_amended.1 _ _ (by decide) (by decide) (by decide)

/-- C7: the deduplication step is idempotent: applying it twice yields
the same list as applying it once. -/
theorem C7_dedupe_idempotent (l : List NamedRec) : dedupe (dedupe l) = dedupe l :=
  dedupeGo_idem l []

theorem searchLoop_some (outcomes : Nat → AttemptOutcome)
    (hno : ∀ n, outcomes n ≠ AttemptOutcome.rateLimited) :
    ∀ fuel retries : Nat, fuel ≠ 0 → ∃ l, searchLoop outcomes retries fuel = some l := by
  intro fuel
  induction fuel with
  | zero => intro r h; exact absurd rfl h
  | succ n ih =>
    intro r _
    cases ho : outcomes r with
    | ok fs => exact ⟨fs, by simp [searchLoop, ho]⟩
    | noData => exact ⟨[], by simp [searchLoop, ho]⟩
    | apiError => exact ⟨[], by simp [searchLoop, ho]⟩
    | rateLimited => exact absurd ho (hno r)
    | exn =>
      by_cases hn : n = 0
      · exact ⟨[], by simp [searchLoop, ho, hn]⟩
      · obtain ⟨l, hl⟩ := ih (r + 1) hn
        exact ⟨l, by simp [searchLoop, ho, hn, hl]⟩

/-- C8: when every attempt raises a 429 rate-limit error, the retry loop
of search_flights increments the counter three times and then falls off
the end of the function, returning None rather than a list; for every
run in which no attempt is rate limited, the adapter terminates with a
list (empty on failure). -/
theorem C8_retry_loop :
    search_flights true (fun _ => AttemptOutcome.rateLimited) = none ∧
    (∀ (hasClient : Bool) (outcomes : Nat → AttemptOutcome),
      (∀ n, outcomes n ≠ AttemptOutcome.rateLimited) →
      ∃ l : List String, search_flights hasClient outcomes = some l) := by
  constructor
  · rfl
  · intro hc outcomes hno
    cases hc with
    | false => exact ⟨[], rfl⟩
    | true =>
      obtain ⟨l, hl⟩ := searchLoop_some outcomes hno 3 0 (by decide)
      exact ⟨l, by simp [search_flights, hl]⟩

/-- C8 witness: a run whose attempts all raise generic exceptions
terminates with a list. -/
theorem C8_retry_loop_witness :
    ∃ l : List String, search_flights true (fun _ => AttemptOutcome.exn) = some l :=
  C8_retry_loop.2 true (fun _ => AttemptOutcome.exn)
    (by intro n h; exact AttemptOutcome.noConfusion h)

/-- C9: price parsing returns none whenever the input text contains no
digits; the text USD 842.50 parses to 842.50 (the currency prefix is
stripped), the empty string parses to none, and a thousands separator is
stripped before conversion. -/
theorem C9_extract_price (s : List Char) (hnod : ∀ c ∈ s, c.isDigit = false) :
    extract_price s = none ∧
    extract_price "USD 842.50".toList = some (1685 / 2 : ℚ) ∧
    extract_price "".toList = none ∧
    extract_price "$1,299.00".toList = some 1299 := by
  refine ⟨?_, ?_, rfl, ?_⟩
  · have hd : s.dropWhile (fun c => !c.isDigit) = [] := by
      rw [List.dropWhile_eq_nil_iff]
      intro x hx
      simp [hnod x hx]
    simp [extract_price, hd]
  · have h0 : "USD 842.50".toList.dropWhile (fun c => !c.isDigit) = "842.50".toList := by
      decide
    have harg : ("842.50".toList.takeWhile isPriceRunChar).filter (fun d => !(d == ',')) =
        "842.50".toList := by decide
    have h1 : extract_price "USD 842.50".toList = floatOfDigitsDots "842.50".toList := by
      simp only [extract_price, h0]
      rw [if_neg (by decide), harg]
    rw [h1]
    have h2 : ("842.50".toList.filter (fun c => c == '.')).length = 1 := by decide
    have h3 : "842.50".toList.takeWhile (fun c => !(c == '.')) = "842".toList := by decide
    have h4 : ("842.50".toList.dropWhile (fun c => !(c == '.'))).drop 1 = "50".toList := by
      decide
    have h5 : digitsVal "842".toList = 842 := by decide
    have h6 : digitsVal "50".toList = 50 := by decide
    rw [floatOfDigitsDots, h3, h4, h5, h6, if_pos (by rw [h2])]
    norm_num
  · have h0 : "$1,299.00".toList.dropWhile (fun c => !c.isDigit) = "1,299.00".toList := by
      decide
    have harg : ("1,299.00".toList.takeWhile isPriceRunChar).filter (fun d => !(d == ',')) =
        "1299.00".toList := by decide
    have h1 : extract_price "$1,299.00".toList = floatOfDigitsDots "1299.00".toList := by
      simp only [extract_price, h0]
      rw [if_neg (by decide), harg]
    rw [h1]
    have h2 : ("1299.00".toList.filter (fun c => c == '.')).length = 1 := by decide
    have h3 : "1299.00".toList.takeWhile (fun c => !(c == '.')) = "1299".toList := by decide
    have h4 : ("1299.00".toList.dropWhile (fun c => !(c == '.'))).drop 1 = "00".toList := by
      decide
    have h5 : digitsVal "1299".toList = 1299 := by decide
    have h6 : digitsVal "00".toList = 0 := by decide
    rw [floatOfDigitsDots, h3, h4, h5, h6, if_pos (by rw [h2])]
    norm_num

/-- C9 witness: a digit-free text evaluates to none. -/
theorem C9_extract_price_witness : extract_price "free cancellation".toList = none :=
  (C9_extract_price "free cancellation".toList (by decide)).1

theorem filterHotelsGo_mem (minP : ℚ) (maxP : Option ℚ) (accType : Option String)
    (maxR : Nat) (l : List ScrapedHotel) :
    ∀ (k : Nat) (h : ScrapedHotel), h ∈ filterHotelsGo minP maxP accType maxR l k →
      ∃ p : ℚ, h.price = some p ∧ p ≠ 0 ∧ minP ≤ p ∧ leMaxPrice p maxP = true := by
  induction l with
  | nil => intro k h hmem; simp [filterHotelsGo] at hmem
  | cons hd tl ih =>
    intro k h hmem
    rw [filterHotelsGo] at hmem
    by_cases hk : maxR ≤ k
    · simp [if_pos hk] at hmem
    · rw [if_neg hk] at hmem
      by_cases hp : priceOK minP maxP hd.price = true
      · rw [if_pos hp] at hmem
        by_cases ht : typePasses accType hd = true
        · rw [if_pos ht, List.mem_cons] at hmem
          rcases hmem with rfl | hmem
          · unfold priceOK at hp
            cases hpr : h.price with
            | none => rw [hpr] at hp; simp [priceTruthy] at hp
            | some q =>
              rw [hpr] at hp
              simp [priceTruthy] at hp
              exact ⟨q, rfl, hp.1, hp.2.1, hp.2.2⟩
          · exact ih _ _ hmem
        · rw [if_neg ht] at hmem; exact ih _ _ hmem
      · rw [if_neg hp] at hmem; exact ih _ _ hmem

/-- Concrete hotel with price exactly 0, inside the (0, 100) budget range
but excluded by the truthiness test. -/
def freeStayHotel : ScrapedHotel := { name := "Free Stay", htype := "hotel", price := some 0 }

/-- C10: every hotel passing the budget filter of
get_accommodation_options has a present nonzero price inside the budget
range, so a hotel whose price is 0, None, or absent is excluded for every
budget level; yet the configured budget range (0, 100) does contain the
price 0, and a concrete zero-priced hotel is filtered out. -/
theorem C10_budget_filter :
    (∀ (budget : String) (accType : Option String) (maxResults : Nat)
      (hotels : List ScrapedHotel) (h : ScrapedHotel),
      h ∈ filterHotels budget accType maxResults hotels →
      ∃ p : ℚ, h.price = some p ∧ p ≠ 0 ∧
        (price_ranges budget).1 ≤ p ∧ leMaxPrice p (price_ranges budget).2 = true) ∧
    price_ranges "budget" = (0, some 100) ∧
    ((price_ranges "budget").1 ≤ 0 ∧ leMaxPrice 0 (price_ranges "budget").2 = true) ∧
    filterHotels "budget" none 3 [freeStayHotel] = [] := by
  refine ⟨?_, by decide, by decide, by decide⟩
  intro budget accType maxResults hotels h hmem
  exact filterHotelsGo_mem _ _ _ _ _ 0 h hmem

/-- Concrete hotel used to witness the budget filter theorem. -/
def pricedHotel : ScrapedHotel := { name := "Palace", htype := "hotel", price := some 50 }

/-- C10 witness: the filter theorem applied to a hotel priced at 50 under
the budget level. -/
theorem C10_budget_filter_witness :
    ∃ p : ℚ, pricedHotel.price = some p ∧ p ≠ 0 ∧
      (price_ranges "budget").1 ≤ p ∧ leMaxPrice p (price_ranges "budget").2 = true :=
  C10_budget_filter.1 "budget" none 3 [pricedHotel] pricedHotel (by decide)

/-- Hotel with price exactly 0, rating 4, fed to the scraper ranking. -/
def zeroPriceHotel : Hotel := { name := "Zero Price Inn", rating := some 4, price := some 0, source := "scrape" }

/-- Hotel with price 50, rating 4, fed to the scraper ranking. -/
def cheapHotel : Hotel := { name := "Cheap Stay", rating := some 4, price := some 50, source := "scrape" }

/-- C5 counterexample: the scraper ranking of hotel_scraper.py does not
sort ascending by price: between two hotels of equal rating with prices 0
and 50, the 50-priced hotel is ranked first, because the key expression
price-or-infinity also sends a present price of 0 to infinity. -/
theorem C5_ranking_counterexample :
    filter_and_rank_results [zeroPriceHotel, cheapHotel] 3 = [cheapHotel, zeroPriceHotel] ∧
    ratingOr0 zeroPriceHotel.rating = ratingOr0 cheapHotel.rating ∧
    zeroPriceHotel.price = some 0 ∧ cheapHotel.price = some 50 ∧ (0 : ℚ) < 50 := by
  have h1 : scraperHotelLE zeroPriceHotel cheapHotel = false := by decide
  have h2 : scraperHotelLE cheapHotel zeroPriceHotel = true := by decide
  have hf : List.filter (fun r => !(r.name == "")) [zeroPriceHotel, cheapHotel] =
      [zeroPriceHotel, cheapHotel] := by decide
  refine ⟨?_, by decide, rfl, rfl, by decide⟩
  simp [filter_and_rank_results, hf, List.mergeSort, List.merge, h1, h2]

/-- C5 amended: the two hotel rankings sort descending by rating with a
missing rating treated as 0 and, at equal ratings, ascending by price,
where accommodation_sort_key treats an absent price as plus infinity
while the scraper ranking also treats a zero price as plus infinity; the
activity rankings sort descending by rating only, with no price
tiebreak; and all these sorts are stable, records with equal keys
keeping their original relative order. -/
theorem C5_ranking_amended :
    (∀ l : List Hotel, (rankAccommodations l).Pairwise
      (fun a b => accommodationLE a b = true)) ∧
    (∀ a b : Hotel, ratingOr0 b.rating < ratingOr0 a.rating →
      accommodationLE a b = true ∧ accommodationLE b a = false) ∧
    (∀ (a b : Hotel) (p q : ℚ), ratingOr0 a.rating = ratingOr0 b.rating →
      a.price = some p → b.price = some q → p < q →
      accommodationLE a b = true ∧ accommodationLE b a = false) ∧
    (∀ (a b : Hotel) (p : ℚ), ratingOr0 a.rating = ratingOr0 b.rating →
      a.price = some p → b.price = none →
      accommodationLE a b = true ∧ accommodationLE b a = false) ∧
    (∀ (l : List Hotel) (a b : Hotel), accommodationLE a b = true →
      accommodationLE b a = true → [a, b].Sublist l →
      [a, b].Sublist (rankAccommodations l)) ∧
    (∀ l : List Hotel,
      ((l.filter (fun r => !(r.name == ""))).mergeSort scraperHotelLE).Pairwise
        (fun a b => scraperHotelLE a b = true)) ∧
    (∀ (a b : Hotel) (p q : ℚ), ratingOr0 a.rating = ratingOr0 b.rating →
      a.price = some p → b.price = some q → 0 < p → p < q →
      scraperHotelLE a b = true ∧ scraperHotelLE b a = false) ∧
    (∀ (a b : Hotel) (p : ℚ), ratingOr0 a.rating = ratingOr0 b.rating →
      a.price = some p → p ≠ 0 → (b.price = none ∨ b.price = some 0) →
      scraperHotelLE a b = true ∧ scraperHotelLE b a = false) ∧
    (∀ (l : List Hotel) (a b : Hotel), scraperHotelLE a b = true →
      scraperHotelLE b a = true → a.name ≠ "" → b.name ≠ "" → [a, b].Sublist l →
      [a, b].Sublist ((l.filter (fun r => !(r.name == ""))).mergeSort scraperHotelLE)) ∧
    (∀ l : List ActivityRec, (rankActivities l).Pairwise
      (fun a b => activityLE a b = true)) ∧
    (∀ a b : ActivityRec, ratingOr0 b.rating < ratingOr0 a.rating →
      activityLE a b = true ∧ activityLE b a = false) ∧
    (∀ (l : List ActivityRec) (a b : ActivityRec),
      ratingOr0 a.rating = ratingOr0 b.rating → [a, b].Sublist l →
      [a, b].Sublist (rankActivities l)) := by
  refine ⟨?_, ?_, ?_, ?_, ?_, ?_, ?_, ?_, ?_, ?_, ?_, ?_⟩
  · intro l
    exact List.sorted_mergeSort accommodationLE_trans accommodationLE_total l
  · intro a b hr
    have h1 : -(ratingOr0 a.rating) < -(ratingOr0 b.rating) := neg_lt_neg hr
    have h2 : ¬ (-(ratingOr0 b.rating) < -(ratingOr0 a.rating)) := not_lt.mpr (le_of_lt h1)
    have h3 : ¬ (-(ratingOr0 b.rating) = -(ratingOr0 a.rating)) := by
      intro h
      exact absurd (neg_injective h) (ne_of_lt hr)
    exact ⟨by simp [accommodationLE, h1], by simp [accommodationLE, h2, h3]⟩
  · intro a b p q hr hfp hgp hpq
    have he : -(ratingOr0 a.rating) = -(ratingOr0 b.rating) := by rw [hr]
    have h2 : ¬ (q ≤ p) := not_le.mpr hpq
    exact ⟨by simp [accommodationLE, he, hfp, hgp, priceLE, le_of_lt hpq],
      by simp [accommodationLE, he, hfp, hgp, priceLE, h2]⟩
  · intro a b p hr hfp hgp
    have he : -(ratingOr0 a.rating) = -(ratingOr0 b.rating) := by rw [hr]
    exact ⟨by simp [accommodationLE, he, hfp, hgp, priceLE],
      by simp [accommodationLE, he, hfp, hgp, priceLE]⟩
  · intro l a b hab hba hsub
    have hp : [a, b].Pairwise (fun x y => accommodationLE x y = true) := by
      simp [List.pairwise_cons, hab]
    exact List.sublist_mergeSort accommodationLE_trans accommodationLE_total hp hsub
  · intro l
    exact List.sorted_mergeSort scraperHotelLE_trans scraperHotelLE_total _
  · intro a b p q hr hfp hgp hp0 hpq
    have he : -(ratingOr0 a.rating) = -(ratingOr0 b.rating) := by rw [hr]
    have hva : scraperPriceVal a.price = some p := by
      simp [scraperPriceVal, hfp, ne_of_gt hp0]
    have hvb : scraperPriceVal b.price = some q := by
      simp [scraperPriceVal, hgp, ne_of_gt (lt_trans hp0 hpq)]
    have h2 : ¬ (q ≤ p) := not_le.mpr hpq
    exact ⟨by simp [scraperHotelLE, he, hva, hvb, priceLE, le_of_lt hpq],
      by simp [scraperHotelLE, he, hva, hvb, priceLE, h2]⟩
  · intro a b p hr hfp hp0 hb
    have he : -(ratingOr0 a.rating) = -(ratingOr0 b.rating) := by rw [hr]
    have hva : scraperPriceVal a.price = some p := by simp [scraperPriceVal, hfp, hp0]
    have hvb : scraperPriceVal b.price = none := by
      rcases hb with hb | hb <;> simp [scraperPriceVal, hb]
    exact ⟨by simp [scraperHotelLE, he, hva, hvb, priceLE],
      by simp [scraperHotelLE, he, hva, hvb, priceLE]⟩
  · intro l a b hab hba ha hb hsub
    have ha2 : (a.name == "") = false := beq_eq_false_iff_ne.mpr ha
    have hb2 : (b.name == "") = false := beq_eq_false_iff_ne.mpr hb
    have hfil : [a, b].filter (fun r => !(r.name == "")) = [a, b] := by
      simp [List.filter, ha2, hb2]
    have hsub2 : [a, b].Sublist (l.filter (fun r => !(r.name == ""))) := by
      rw [← hfil]
      exact hsub.filter _
    have hp : [a, b].Pairwise (fun x y => scraperHotelLE x y = true) := by
      simp [List.pairwise_cons, hab]
    exact List.sublist_mergeSort scraperHotelLE_trans scraperHotelLE_total hp hsub2
  · intro l
    exact List.sorted_mergeSort activityLE_trans activityLE_total l
  · intro a b hr
    exact ⟨by simp [activityLE, le_of_lt hr], by simp [activityLE, not_le.mpr hr]⟩
  · intro l a b hr hsub
    have hab : activityLE a b = true := by simp [activityLE, hr]
    have hp : [a, b].Pairwise (fun x y => activityLE x y = true) := by
      simp [List.pairwise_cons, hab]
    exact List.sublist_mergeSort activityLE_trans activityLE_total hp hsub

/-- C5 amended witness: the ordering and stability conjuncts evaluated at
concrete hotels and activities. -/
theorem C5_ranking_amended_witness :
    (accommodationLE { name := "A", rating := some 5, price := some 20 }
        { name := "B", rating := some 3, price := some 10 } = true ∧
      accommodationLE { name := "B", rating := some 3, price := some 10 }
        { name := "A", rating := some 5, price := some 20 } = false) ∧
    (accommodationLE { name := "A", rating := some 4, price := some 10 }
        { name := "B", rating := some 4, price := none } = true ∧
      accommodationLE { name := "B", rating := some 4, price := none }
        { name := "A", rating := some 4, price := some 10 } = false) ∧
    (scraperHotelLE cheapHotel zeroPriceHotel = true ∧
      scraperHotelLE zeroPriceHotel cheapHotel = false) ∧
    [{ name := "A", rating := some 4, price := some 10 },
      { name := "B", rating := some 4, price := some 10 }].Sublist
      (rankAccommodations [{ name := "A", rating := some 4, price := some 10 },
        { name := "B", rating := some 4, price := some 10 }]) ∧
    (activityLE { name := "X", rating := some 5 } { name := "Y", rating := none } = true ∧
      activityLE { name := "Y", rating := none } { name := "X", rating := some 5 } = false) :=
  ⟨C5_ranking_amended.2.1 _ _ (by decide),
   C5_ranking_amended.2.2.2.1 _ _ 10 (by decide) rfl rfl,
   C5_ranking_amended.2.2.2.2.2.2.2.1 cheapHotel zeroPriceHotel 50 (by decide) rfl
     (by decide) (Or.inr rfl),
   C5_ranking_amended.2.2.2.2.1 _ _ _ (by decide) (by decide) (by decide),
   C5_ranking_amended.2.2.2.2.2.2.2.2.2.2.1 _ _ (by decide)⟩

/-- C2: for every query whose dates parse and are ordered (the input
validation), plan_trip returns the plan dictionary with its metadata and
status, the fetch trace covers every category, each category entry is
determined by its own fetcher outcome alone, a fetcher that raises
leaves its category empty with the message recorded in the errors list,
and the status is one of success, partial, failed. -/
theorem C2_plan_trip_robust (origin destination start_s end_s : String) (s e : Int)
    (travelers : Nat) (budget : String) (includeActivities hasOpenAIKey : Bool)
    (fR aR cR iR : Except String (List String)) (summaryR : Except String String)
    (hdates : s ≤ e) :
    plan_trip origin destination start_s end_s (some s) (some e) travelers budget
        includeActivities hasOpenAIKey fR aR cR iR summaryR =
      (.plan (plan_trip_body origin destination start_s end_s travelers budget
          includeActivities hasOpenAIKey fR aR cR iR summaryR),
        [FetchCall.flights, FetchCall.accommodations] ++
          (if includeActivities then [FetchCall.activities] else []) ++
          [FetchCall.travelInfo]) ∧
    (plan_trip_body origin destination start_s end_s travelers budget
        includeActivities hasOpenAIKey fR aR cR iR summaryR).flights = catField fR ∧
    (plan_trip_body origin destination start_s end_s travelers budget
        includeActivities hasOpenAIKey fR aR cR iR summaryR).accommodations = catField aR ∧
    (plan_trip_body origin destination start_s end_s travelers budget
        includeActivities hasOpenAIKey fR aR cR iR summaryR).activities =
      (if includeActivities then some (catField cR) else none) ∧
    (plan_trip_body origin destination start_s end_s travelers budget
        includeActivities hasOpenAIKey fR aR cR iR summaryR).travel_info = catField iR ∧
    (∀ m, fR = .error m →
      (plan_trip_body origin destination start_s end_s travelers budget
          includeActivities hasOpenAIKey fR aR cR iR summaryR).flights.results = [] ∧
      ("Could not retrieve flight options: " ++ m) ∈
        (plan_trip_body origin destination start_s end_s travelers budget
          includeActivities hasOpenAIKey fR aR cR iR summaryR).metadata.errors) ∧
    (∀ m, aR = .error m →
      (plan_trip_body origin destination start_s end_s travelers budget
          includeActivities hasOpenAIKey fR aR cR iR summaryR).accommodations.results = [] ∧
      ("Could not retrieve accommodation options: " ++ m) ∈
        (plan_trip_body origin destination start_s end_s travelers budget
          includeActivities hasOpenAIKey fR aR cR iR summaryR).metadata.errors) ∧
    (∀ m, includeActivities = true → cR = .error m →
      (plan_trip_body origin destination start_s end_s travelers budget
          includeActivities hasOpenAIKey fR aR cR iR summaryR).activities =
        some (CatOutcome.failed m) ∧
      ("Could not retrieve activity options: " ++ m) ∈
        (plan_trip_body origin destination start_s end_s travelers budget
          includeActivities hasOpenAIKey fR aR cR iR summaryR).metadata.errors) ∧
    (∀ m, iR = .error m →
      (plan_trip_body origin destination start_s end_s travelers budget
          includeActivities hasOpenAIKey fR aR cR iR summaryR).travel_info.results = [] ∧
      ("Could not retrieve travel information: " ++ m) ∈
        (plan_trip_body origin destination start_s end_s travelers budget
          includeActivities hasOpenAIKey fR aR cR iR summaryR).metadata.errors) ∧
    ((plan_trip_body origin destination start_s end_s travelers budget
        includeActivities hasOpenAIKey fR aR cR iR summaryR).status = "success" ∨
      (plan_trip_body origin destination start_s end_s travelers budget
        includeActivities hasOpenAIKey fR aR cR iR summaryR).status = "partial" ∨
      (plan_trip_body origin destination start_s end_s travelers budget
        includeActivities hasOpenAIKey fR aR cR iR summaryR).status = "failed") := by
  have hne : ¬ (e < s) := not_lt.mpr hdates
  refine ⟨by simp [plan_trip, hne], rfl, rfl, rfl, rfl, ?_, ?_, ?_, ?_, ?_⟩
  · intro m hm
    subst hm
    exact ⟨rfl, by simp [plan_trip_body, planErrors]⟩
  · intro m hm
    subst hm
    exact ⟨rfl, by simp [plan_trip_body, planErrors]⟩
  · intro m hIA hm
    subst hm
    subst hIA
    exact ⟨rfl, by simp [plan_trip_body, planErrors]⟩
  · intro m hm
    subst hm
    exact ⟨rfl, by simp [plan_trip_body, planErrors]⟩
  · by_cases h1 : planErrors includeActivities fR aR cR iR = []
    · exact Or.inl (by simp [plan_trip_body, h1])
    · by_cases h2 : (planErrors includeActivities fR aR cR iR).length < 4
      · exact Or.inr (Or.inl (by simp [plan_trip_body, h1, h2]))
      · exact Or.inr (Or.inr (by simp [plan_trip_body, h1, h2]))

/-- C2 witness: a run with ordered concrete dates in which the flight
fetcher raises still returns the full plan, with the error recorded. -/
theorem C2_plan_trip_robust_witness :
    plan_trip "New York" "Tokyo" "2025-06-01" "2025-06-07" (some 0) (some 6) 2 "moderate"
        true false (Except.error "boom") (Except.ok ["h"]) (Except.ok ["a"])
        (Except.ok ["i"]) (Except.ok "s") =
      (.plan (plan_trip_body "New York" "Tokyo" "2025-06-01" "2025-06-07" 2 "moderate"
          true false (Except.error "boom") (Except.ok ["h"]) (Except.ok ["a"])
          (Except.ok ["i"]) (Except.ok "s")),
        [FetchCall.flights, FetchCall.accommodations, FetchCall.activities,
          FetchCall.travelInfo]) ∧
    ("Could not retrieve flight options: boom") ∈
      (plan_trip_body "New York" "Tokyo" "2025-06-01" "2025-06-07" 2 "moderate"
        true false (Except.error "boom") (Except.ok ["h"]) (Except.ok ["a"])
        (Except.ok ["i"]) (Except.ok "s")).metadata.errors :=
  ⟨(C2_plan_trip_robust "New York" "Tokyo" "2025-06-01" "2025-06-07" 0 6 2 "moderate"
      true false (Except.error "boom") (Except.ok ["h"]) (Except.ok ["a"])
      (Except.ok ["i"]) (Except.ok "s") (by decide)).1,
   ((C2_plan_trip_robust "New York" "Tokyo" "2025-06-01" "2025-06-07" 0 6 2 "moderate"
      true false (Except.error "boom") (Except.ok ["h"]) (Except.ok ["a"])
      (Except.ok ["i"]) (Except.ok "s") (by decide)).2.2.2.2.2.1 "boom" rfl).2⟩

/-- C3: when the destination cannot be determined, both entry points
return a validation error with an explanatory message and an empty
backend call trace: no source adapter or backend is contacted. -/
theorem C3_validation_before_backend :
    (∀ (details : TripDetails) (b : Backends) (mentionsFood : Bool),
      details.destination_city = none →
      amadeus_plan_trip details b mentionsFood =
        (.error "Could not determine the destination city from your query. Please specify where you want to go.",
         [])) ∧
    (∀ (params : LLMParams) (startD endD : Option Int) (travelers : Nat) (budget : String)
      (includeActivities hasOpenAIKey : Bool) (fR aR cR iR : Except String (List String))
      (summaryR : Except String String),
      params.destination_city = none →
      llm_trip_planner_tool params startD endD travelers budget includeActivities
        hasOpenAIKey fR aR cR iR summaryR =
        (.missingParams "Missing required parameters. Must provide origin_city, destination_city, start_date, and end_date.",
         [])) := by
  constructor
  · intro details b mf hd
    simp [amadeus_plan_trip, hd]
  · intro params sD eD tr bu iA hK fR aR cR iR sR hd
    simp [llm_trip_planner_tool, strTruthy, hd]

/-- Backends instance used by the witnesses: DuckDuckGo yields five
hotels, everything else succeeds with empty results. -/
def demoBackends : Backends where
  getCityCode := fun _ => some "PAR"
  defaultAirportCode := fun _ => none
  searchFlights := .ok []
  ddgHotels := .ok ["h1", "h2", "h3", "h4", "h5"]
  amadeusHotels := .ok []
  ddgActivities := .ok []
  fcActivities := .ok []
  fcAttractions := .ok []
  fcRestaurants := .ok []

/-- Trip details without a determinable destination. -/
def noDestDetails : TripDetails := { origin_city := some "New York", destination_city := none }

/-- Parameter dictionary without a destination. -/
def noDestParams : LLMParams := { origin_city := some "New York", destination_city := none, start_date := some "2025-06-01", end_date := some "2025-06-07" }

/-- C3 witness: both validation rejections evaluated at concrete inputs. -/
theorem C3_validation_before_backend_witness :
    amadeus_plan_trip noDestDetails demoBackends false =
      (.error "Could not determine the destination city from your query. Please specify where you want to go.",
       []) ∧
    llm_trip_planner_tool noDestParams (some 0) (some 6) 2 "moderate" true false
        (Except.ok []) (Except.ok []) (Except.ok []) (Except.ok []) (Except.ok "") =
      (.missingParams "Missing required parameters. Must provide origin_city, destination_city, start_date, and end_date.",
       []) :=
  ⟨C3_validation_before_backend.1 noDestDetails demoBackends false rfl,
   C3_validation_before_backend.2 noDestParams (some 0) (some 6) 2 "moderate" true false
     (Except.ok []) (Except.ok []) (Except.ok []) (Except.ok []) (Except.ok "") rfl⟩

theorem amadeusHotels_not_in_flightSection (o d : String) (b : Backends) :
    Call.amadeusSearchHotels ∉ (flightSection o d b).2 := by
  simp only [flightSection]
  split
  · split
    · split <;> simp
    · simp
  · simp

theorem amadeusHotels_not_in_activitySection (d : String) (b : Backends) (mf : Bool) :
    Call.amadeusSearchHotels ∉ (activitySection d b mf).2 := by
  simp only [activitySection]
  split
  · simp
  · split
    · simp
    · split
      · simp
      · split
        · simp
        · split
          · split
            · simp
            · split <;> simp
          · split <;> simp

theorem hotelSection_ddg_hit (destination : String) (b : Backends) (l : List String)
    (hddg : b.ddgHotels = .ok l) (hne : l ≠ []) :
    hotelSection destination b = ((l, []), [Call.ddgSearchHotels]) := by
  have hie : l.isEmpty = false := by
    cases l with
    | nil => exact absurd rfl hne
    | cons x xs => rfl
  simp [hotelSection, hddg, hie]

theorem flightScraper_always_called (af : Except Unit (List Flight))
    (sc : Except Unit (List (String × List Flight))) (maxR : Nat) (o d : String) :
    Call.flightScraper ∈ (get_flight_options af sc maxR o d).2 := by
  simp only [get_flight_options]
  split <;> simp

/-- Five well-formed flight records, enough to meet target_count = 5. -/
def fiveFlights : List Flight := [{ stops := 0, price := some 100 }, { stops := 0, price := some 200 }, { stops := 1, price := some 50 }, { stops := 1, price := some 300 }, { stops := 2, price := none }]

/-- C1 counterexample: in the flight pipeline of get_flight_options the
Amadeus source returns five records, meeting target_count = 5, yet the
lower-priority scraper source is still invoked: its call appears in the
backend call trace of the run. -/
theorem C1_flight_fallback_counterexample :
    fiveFlights.length = 5 ∧
    Call.flightScraper ∈
      (get_flight_options (Except.ok fiveFlights) (Except.ok []) 3 "New York" "Paris").2 :=
  ⟨rfl, flightScraper_always_called (Except.ok fiveFlights) (Except.ok []) 3 "New York" "Paris"⟩

/-- C1 amended: the hotel pipeline of AmadeusTripPlannerTool.plan_trip
never invokes the priority-2 Amadeus hotel source once the priority-1
DuckDuckGo source yields at least target_count = 5 records (indeed any
nonempty result), but the flight pipeline of get_flight_options always
invokes the scraper source, whatever the Amadeus API returned. -/
theorem C1_fallback_short_circuit :
    (∀ (details : TripDetails) (b : Backends) (mf : Bool) (dst : String) (l : List String),
      details.destination_city = some dst → b.ddgHotels = .ok l → 5 ≤ l.length →
      Call.amadeusSearchHotels ∉ (amadeus_plan_trip details b mf).2) ∧
    (∀ (af : Except Unit (List Flight)) (sc : Except Unit (List (String × List Flight)))
      (maxR : Nat) (o d : String),
      Call.flightScraper ∈ (get_flight_options af sc maxR o d).2) := by
  constructor
  · intro details b mf dst l hdest hddg hlen
    have hne : l ≠ [] := by
      intro h
      subst h
      simp at hlen
    simp only [amadeus_plan_trip, hdest]
    rw [hotelSection_ddg_hit dst b l hddg hne]
    simp only [List.mem_append, List.mem_singleton]
    push_neg
    refine ⟨⟨?_, by simp⟩, ?_⟩
    · cases details.origin_city with
      | none => simp
      | some o => exact amadeusHotels_not_in_flightSection o dst b
    · exact amadeusHotels_not_in_activitySection dst b mf
  · exact flightScraper_always_called

/-- C1 witness: five DuckDuckGo hotels short-circuit the Amadeus hotel
source, and the flight scraper is invoked in a concrete run. -/
theorem C1_fallback_short_circuit_witness :
    Call.amadeusSearchHotels ∉
      (amadeus_plan_trip { origin_city := none, destination_city := some "Paris" }
        demoBackends false).2 ∧
    Call.flightScraper ∈ (get_flight_options (Except.ok []) (Except.ok []) 3 "a" "b").2 :=
  ⟨C1_fallback_short_circuit.1 { origin_city := none, destination_city := some "Paris" }
      demoBackends false "Paris" ["h1", "h2", "h3", "h4", "h5"] rfl rfl (by decide),
   C1_fallback_short_circuit.2 (Except.ok []) (Except.ok []) 3 "a" "b"⟩

end TravelAgent
